import Mathlib

/-!
Verification of the RBAC authorization-decision engine
(`custom_components/rbac/__init__.py`).

The definitions below are a shallow embedding of the Python source:

* `checkServiceAccess` embeds `_check_service_access_with_reason`
  (lines 819-1234), returning only the boolean component of the
  `(bool, reason)` pair.
* `dispatchCall` embeds the routing part of
  `RestrictedServiceRegistry.async_call` (lines 270-348): chain
  exemption, excluded domains, user resolution, the built-in user
  skip, the `enabled` flag, and finally the access check.
* `runAllowedChainableCall` embeds the chain-guard register /
  scoped-release fragment of `async_call` (lines 442-464).

Python mappings become association lists (`List (String × Rule)` with
`List.lookup`); Python `dict.get(k, default)` with a truthiness test
becomes `Option` matching.  Template rendering is an external effect
(Home Assistant `Template.async_render`), passed in as an oracle
`tmplEval : String → TemplateOutcome`.
-/

namespace RBAC

/-- One allow/block clause as stored in the YAML config: keys `allow`,
`hide` and `services` read with `.get("allow", False)`,
`.get("hide", False)`, `.get("services", [])`. -/
structure Rule where
  allow : Bool := false
  hide : Bool := false
  services : List String := []
deriving DecidableEq, Repr

/-- The two rule tables of a default/role/subject record:
`{"domains": {...}, "entities": {...}}`. -/
structure ScopeRuleSet where
  domains : List (String × Rule) := []
  entities : List (String × Rule) := []
deriving DecidableEq, Repr

/-- A role definition `roles.<name>` with keys `admin`, `deny_all`,
`permissions`, `template`, `fallbackRole`.  `template`/`fallbackRole`
are absent-or-string; the code treats an empty string like absence
(Python truthiness). -/
structure RoleDef where
  admin : Bool := false
  deny_all : Bool := false
  permissions : ScopeRuleSet := {}
  template : Option String := none
  fallbackRole : Option String := none
deriving DecidableEq, Repr

/-- A per-user record `users.<id>` with keys `role` and `restrictions`. -/
structure UserConfig where
  role : String
  restrictions : ScopeRuleSet := {}
deriving DecidableEq, Repr

/-- The loaded `access_control.yaml` document (the parts the decision
path reads). -/
structure AccessConfig where
  enabled : Bool := true
  allow_chained_actions : Bool := false
  default_restrictions : ScopeRuleSet := {}
  roles : List (String × RoleDef) := []
  users : List (String × UserConfig) := []
deriving DecidableEq, Repr

/-- `service_data["entity_id"]` is either a single entity-id string or
a list of entity-id strings (`isinstance(entity_id, list)` branch). -/
inductive EntityTarget where
  | single (e : String)
  | multiple (es : List String)
deriving DecidableEq, Repr

/-- Outcome of `template.async_render(..., parse_result=False)`: the
rendered string, or a raised exception. -/
inductive TemplateOutcome where
  | err
  | ok (r : String)
deriving DecidableEq, Repr

/-- Python `not services or service in services`, the test used by
every allow rule and every block-all check. -/
def emptyOrMem (services : List String) (service : String) : Bool :=
  services.isEmpty || services.contains service

/-- Python truthiness of an optional string (`if template_str and
fallback_role:`): present and non-empty. -/
def truthyOptStr : Option String → Bool
  | none => false
  | some s => !(s == "")

/-- `bool(result) if result not in [None, "", "False", "false", "0"]
else False` applied to the rendered string (line 921). -/
def templateTruthy (r : String) : Bool :=
  !(r == "" || r == "False" || r == "false" || r == "0")

/-- Standalone evaluation of a role rule found at a scope key:
lines 1102-1121 (entity scope) and 1181-1199 (domain scope).
`some true` = allow, `some false` = block, `none` = fall through. -/
def ruleMatch (r : Rule) (service : String) : Option Bool :=
  if r.allow then
    if emptyOrMem r.services service then some true else some false
  else
    if r.services.isEmpty then some false
    else if r.services.contains service then some false
    else none

/-- Role rule consulted inside a default block-all rule:
lines 985-1004 (list entity), 1062-1081 (single entity),
1141-1160 (domain).  A missing role rule blocks. -/
def roleUnderDefaultBlockAll (roleTable : List (String × Rule))
    (key service : String) : Option Bool :=
  match roleTable.lookup key with
  | none => some false
  | some rcfg =>
    if rcfg.allow then
      if emptyOrMem rcfg.services service then some true else some false
    else
      if rcfg.services.isEmpty then some false
      else if !(rcfg.services.contains service) then some false
      else none

/-- Role rule consulted inside a default rule blocking the specific
service: lines 1005-1023 (list entity), 1082-1099 (single entity),
1161-1178 (domain). -/
def roleUnderDefaultBlockSvc (roleTable : List (String × Rule))
    (key service : String) : Option Bool :=
  match roleTable.lookup key with
  | none => some false
  | some rcfg =>
    if rcfg.allow then
      if emptyOrMem rcfg.services service then some true else some false
    else
      if rcfg.services.contains service then some false
      else none

/-- Evaluation of one scope key for a known subject.  The default
restriction is consulted first (its allow branch decides directly,
its block branches defer to the role rule), then the role rule
standalone.  The entity blocks (lines 969-1045 and 1047-1121, which
the source marks "Same logic for single entity") and the domain block
(lines 1123-1199) all have this exact shape. -/
def scopeCheck (defaults roleTable : List (String × Rule))
    (key service : String) : Option Bool :=
  let step1 : Option Bool :=
    match defaults.lookup key with
    | some dcfg =>
      if dcfg.allow then
        if emptyOrMem dcfg.services service then some true else some false
      else
        if dcfg.services.isEmpty then
          roleUnderDefaultBlockAll roleTable key service
        else if dcfg.services.contains service then
          roleUnderDefaultBlockSvc roleTable key service
        else none
    | none => none
  match step1 with
  | some b => some b
  | none =>
    match roleTable.lookup key with
    | some rcfg => ruleMatch rcfg service
    | none => none

/-- Entity-scope phase (lines 965-1121): for a list target the loop
returns at the first entity with a conclusive result; no target means
no entity-scope evaluation. -/
def entityPhase (defaultEntities roleEntities : List (String × Rule))
    (service : String) : Option EntityTarget → Option Bool
  | some (.single e) => scopeCheck defaultEntities roleEntities e service
  | some (.multiple es) =>
      es.findSome? (fun e => scopeCheck defaultEntities roleEntities e service)
  | none => none

/-- Entity ids inspected by the deny-all override (lines 1206-1219):
the request's targets plus, for `script`/`automation`, the synthetic
id `domain.service`. -/
def denyAllTargets (domain service : String) :
    Option EntityTarget → List String
  | some (.single e) =>
      if domain == "script" || domain == "automation" then
        [e, domain ++ "." ++ service]
      else [e]
  | some (.multiple es) =>
      if domain == "script" || domain == "automation" then
        es ++ [domain ++ "." ++ service]
      else es
  | none =>
      if domain == "script" || domain == "automation" then
        [domain ++ "." ++ service]
      else []

/-- Whether some inspected entity id carries a role entity allow rule
covering the service (lines 1221-1230). -/
def denyAllAllow (roleEntities : List (String × Rule))
    (domain service : String) (target : Option EntityTarget) : Bool :=
  (denyAllTargets domain service target).any fun eid =>
    match roleEntities.lookup eid with
    | some ec => ec.allow && emptyOrMem ec.services service
    | none => false

/-- The deny-all step (lines 1201-1232). `none` means the step does
not apply (deny_all unset, or the carved-out `system_log.write` /
`browser_mod.notification` pair) and control reaches the final
`return True`. -/
def denyAllCheck (deny_all : Bool) (roleEntities : List (String × Rule))
    (domain service : String) (target : Option EntityTarget) : Option Bool :=
  if deny_all &&
      !((domain == "system_log" && service == "write") ||
        (domain == "browser_mod" && service == "notification")) then
    if denyAllAllow roleEntities domain service target then some true
    else some false
  else none

/-- Decision for a known subject once the role configuration is
resolved (lines 952-1234): admin bypass, entity phase, domain phase,
deny-all step, final allow. -/
def checkKnownUserRole (dr : ScopeRuleSet) (rd : RoleDef)
    (domain service : String) (target : Option EntityTarget) : Bool :=
  if rd.admin then true
  else
    match entityPhase dr.entities rd.permissions.entities service target with
    | some b => b
    | none =>
      match scopeCheck dr.domains rd.permissions.domains domain service with
      | some b => b
      | none =>
        match denyAllCheck rd.deny_all rd.permissions.entities domain service target with
        | some b => b
        | none => true

/-- Default entity restriction for an unknown subject (lines 863-881):
only `services` is read; empty list blocks all, membership blocks. -/
def unknownEntityCheck (defaultEntities : List (String × Rule))
    (service eid : String) : Option Bool :=
  match defaultEntities.lookup eid with
  | some ecfg =>
    if ecfg.services.isEmpty then some false
    else if ecfg.services.contains service then some false
    else none
  | none => none

/-- Decision for a subject with no user record (lines 837-883):
domain defaults, then entity defaults, block-only, else allow. -/
def checkUnknownUser (dr : ScopeRuleSet) (domain service : String)
    (target : Option EntityTarget) : Bool :=
  let domainBlock : Option Bool :=
    match dr.domains.lookup domain with
    | some dcfg =>
      if dcfg.services.isEmpty then some false
      else if dcfg.services.contains service then some false
      else none
    | none => none
  match domainBlock with
  | some b => b
  | none =>
    let entityBlock : Option Bool :=
      match target with
      | some (.single e) => unknownEntityCheck dr.entities service e
      | some (.multiple es) =>
          es.findSome? (unknownEntityCheck dr.entities service)
      | none => none
    match entityBlock with
    | some b => b
    | none => true

/-- Result of the role-resolution step (lines 886-950).
`conclusiveAllow` stands for the early `return True` paths: role
configuration missing (line 949) or the fallback role not found
(lines 931-933, 943-945). -/
inductive RoleResolution where
  | conclusiveAllow
  | resolved (roleName : String) (rd : RoleDef)
deriving DecidableEq, Repr

/-- Role resolution with template-conditioned fallback
(lines 886-950, with `hass` present so the template step runs).
A falsy render or a raised render error switches to the fallback
role; an absent fallback role yields the early allow. -/
def resolveRoleConfig (roles : List (String × RoleDef)) (userRole : String)
    (tmplEval : String → TemplateOutcome) : RoleResolution :=
  match roles.lookup userRole with
  | none => .conclusiveAllow
  | some rc =>
    if truthyOptStr rc.template && truthyOptStr rc.fallbackRole then
      let tstr := rc.template.getD ""
      let frole := rc.fallbackRole.getD ""
      let fallbackResult : RoleResolution :=
        match roles.lookup frole with
        | none => .conclusiveAllow
        | some fc => .resolved frole fc
      match tmplEval tstr with
      | .ok r => if templateTruthy r then .resolved userRole rc else fallbackResult
      | .err => fallbackResult
    else .resolved userRole rc

/-- `_check_service_access_with_reason` (lines 819-1234), boolean
component. -/
def checkServiceAccess (cfg : AccessConfig) (userId : Option String)
    (domain service : String) (target : Option EntityTarget)
    (tmplEval : String → TemplateOutcome) : Bool :=
  match userId with
  | none => true
  | some uid =>
    if uid == "" || uid == "null" then true
    else
      match cfg.users.lookup uid with
      | none => checkUnknownUser cfg.default_restrictions domain service target
      | some uc =>
        match resolveRoleConfig cfg.roles uc.role tmplEval with
        | .conclusiveAllow => true
        | .resolved _ rd =>
            checkKnownUserRole cfg.default_restrictions rd domain service target

/-- Domains skipped by RBAC enforcement (line 299). -/
def excludedDomains : List String :=
  ["http", "auth", "system_log", "persistent_notification"]

/-- `isPreauthorized`: some id of the caller's context chain (its own
id or its parent's id) is currently registered (lines 286-296). -/
def isPreauthorized (contextChain allowedContexts : List String) : Bool :=
  contextChain.any (fun c => allowedContexts.contains c)

/-- How `async_call` routes one inbound call before/at the access
check. -/
inductive DispatchOutcome where
  | passthroughChained
  | passthroughExcluded
  | passthroughBuiltin
  | passthroughNoUser
  | passthroughDisabled
  | evaluated (allowed : Bool)
deriving DecidableEq, Repr

/-- Routing portion of `RestrictedServiceRegistry.async_call`
(lines 270-348): chain exemption, excluded domains, user lookup,
built-in-user skip, missing-user allow, `enabled` flag, then the
access check.  `builtinUser` abstracts `_is_builtin_ha_user`. -/
def dispatchCall (cfg : AccessConfig) (allowedContexts contextChain : List String)
    (domain service : String) (userId : Option String) (builtinUser : Bool)
    (target : Option EntityTarget)
    (tmplEval : String → TemplateOutcome) : DispatchOutcome :=
  if cfg.allow_chained_actions && isPreauthorized contextChain allowedContexts then
    .passthroughChained
  else if excludedDomains.contains domain then
    .passthroughExcluded
  else
    match userId with
    | none => .passthroughNoUser
    | some uid =>
      if !(uid == "") && builtinUser then .passthroughBuiltin
      else if uid == "" || uid == "null" then .passthroughNoUser
      else if !cfg.enabled then .passthroughDisabled
      else .evaluated (checkServiceAccess cfg (some uid) domain service target tmplEval)

/-- `allowed_contexts.add(context.id)` (line 451): Python set add. -/
def beginChain (allowedContexts : List String) (cid : String) : List String :=
  if allowedContexts.contains cid then allowedContexts else cid :: allowedContexts

/-- `allowed_contexts.discard(context_id_added)` (line 461): Python
set discard. -/
def endChain (allowedContexts : List String) (cid : String) : List String :=
  allowedContexts.filter (fun c => !(c == cid))

/-- The register/execute/release fragment of `async_call`
(lines 442-464) on the path where registration happens (chained
actions enabled, a context id, `script`/`automation` domain, allow
decision): the id is added, the original call runs (`outcome` is its
return or raised error), and the `finally` block discards the id on
both exits. -/
def runAllowedChainableCall (allowedContexts : List String) (cid : String)
    (outcome : Except String Unit) : Except String Unit × List String :=
  let registered := beginChain allowedContexts cid
  (outcome, endChain registered cid)

/-- A rule with allow over its whole scope and no further fields:
`{allow: true}`. -/
def ruleAllowAll : Rule := { allow := true, hide := false, services := [] }

/-- A rule blocking its whole scope: `{}` / `{allow: false}`. -/
def ruleBlockAll : Rule := { allow := false, hide := false, services := [] }

/-- A role with no special flags and no permissions. -/
def plainRole : RoleDef := {}

/-- A template oracle whose render always raises. -/
def tmplErrOracle : String → TemplateOutcome := fun _ => .err

/-- A template oracle whose render always yields the falsy string
`"False"`. -/
def tmplFalsyOracle : String → TemplateOutcome := fun _ => .ok "False"

/-! ### Shared helper lemmas -/

theorem lookup_map_value (f : Rule → Rule) (l : List (String × Rule)) (k : String) :
    (l.map fun p => (p.1, f p.2)).lookup k = (l.lookup k).map f := by
  induction l with
  | nil => rfl
  | cons hd tl ih =>
    simp only [List.map_cons, List.lookup]
    cases h : k == hd.1 <;> simp [h, ih]

theorem checkKnownUserRole_of_entityPhase (dr : ScopeRuleSet) (rd : RoleDef)
    (domain service : String) (target : Option EntityTarget) (b : Bool)
    (hadm : rd.admin = false)
    (h : entityPhase dr.entities rd.permissions.entities service target = some b) :
    checkKnownUserRole dr rd domain service target = b := by
  simp [checkKnownUserRole, hadm, h]

theorem findSome?_first_conclusive {α β : Type} (f : α → Option β)
    (es1 es2 : List α) (e : α) (b : β)
    (h1 : ∀ x ∈ es1, f x = none) (h2 : f e = some b) :
    (es1 ++ e :: es2).findSome? f = some b := by
  induction es1 with
  | nil => simp [List.findSome?, h2]
  | cons hd tl ih =>
    have hhd : f hd = none := h1 hd (by simp)
    have htl : ∀ x ∈ tl, f x = none := fun x hx => h1 x (by simp [hx])
    simp [List.findSome?, hhd, ih htl]

/-! ### C1: rule order within a scope -/

/-- Role for the C1 counterexample: its entity rule blocks
`light.kitchen` entirely. -/
def roleC1 : RoleDef :=
  { admin := false, deny_all := false
    permissions := { domains := [], entities := [("light.kitchen", ruleBlockAll)] }
    template := none, fallbackRole := none }

/-- User record for the C1 counterexample: its subject-override
entity rule allows `light.kitchen` for every service. -/
def userC1 : UserConfig :=
  { role := "r"
    restrictions := { domains := [], entities := [("light.kitchen", ruleAllowAll)] } }

def cfgC1 : AccessConfig :=
  { enabled := true, allow_chained_actions := false
    default_restrictions := {}
    roles := [("r", roleC1)]
    users := [("u", userC1)] }

/-- C1 counterexample: the subject carries an explicit entity-level
allow-all override for `light.kitchen`, so under the claimed order
(subject-override rule first, first match wins) the request would be
Allow; the code blocks it from the role rule, because subject-override
restrictions are never consulted by the service-access check. -/
theorem c1_subject_override_ignored_cex :
    cfgC1.users.lookup "u" = some userC1
    ∧ userC1.restrictions.entities.lookup "light.kitchen" = some ruleAllowAll
    ∧ ruleAllowAll.allow = true
    ∧ emptyOrMem ruleAllowAll.services "turn_on" = true
    ∧ checkServiceAccess cfgC1 (some "u") "light" "turn_on"
        (some (.single "light.kitchen")) tmplErrOracle = false := by
  refine ⟨by decide, by decide, rfl, rfl, by decide⟩

/-- C1 amended: for a known subject, subject-override restriction
rules are never consulted (the decision is invariant under the
subject's `restrictions`); at each scope the default-restriction rule
is evaluated first, its allow branch deciding directly regardless of
the role rule. -/
theorem c1_precedence_amended :
    (∀ (cfg : AccessConfig) (uid rn : String) (restr restr' : ScopeRuleSet)
       (domain service : String) (target : Option EntityTarget)
       (tmplEval : String → TemplateOutcome),
       checkServiceAccess { cfg with users := [(uid, ⟨rn, restr⟩)] } (some uid)
           domain service target tmplEval
         = checkServiceAccess { cfg with users := [(uid, ⟨rn, restr'⟩)] } (some uid)
             domain service target tmplEval)
    ∧ (∀ (defaults roleTable : List (String × Rule)) (key service : String) (d : Rule),
       defaults.lookup key = some d → d.allow = true →
       scopeCheck defaults roleTable key service
         = (if emptyOrMem d.services service then some true else some false)) := by
  constructor
  · intro cfg uid rn restr restr' domain service target tmplEval
    simp only [checkServiceAccess, List.lookup, beq_self_eq_true]
  · intro defaults roleTable key service d hd hallow
    simp only [scopeCheck, hd, hallow, if_true]
    by_cases hc : emptyOrMem d.services service <;> simp [hc]

/-- Witness for `c1_precedence_amended`: a default domain allow rule
for all services decides Allow. -/
theorem c1_precedence_amended_w :
    scopeCheck [("light", ruleAllowAll)] [] "light" "turn_on"
      = (if emptyOrMem ruleAllowAll.services "turn_on" then some true else some false) :=
  c1_precedence_amended.2 [("light", ruleAllowAll)] [] "light" "turn_on" ruleAllowAll
    (by decide) (by decide)

/-! ### C2: deny-all with explicit entity allow override -/

/-- Role for the C2 counterexample: `deny_all` set, no rules at all. -/
def roleC2 : RoleDef := { deny_all := true }

def cfgC2 : AccessConfig :=
  { roles := [("r", roleC2)], users := [("u", { role := "r" })] }

/-- C2 counterexample: a `system_log.write` request under a deny-all
role with no rules reaches the deny-all step with no entity-level
allow rule anywhere, yet the decision is Allow — the claim, as
stated, requires Block here. -/
theorem c2_deny_all_carveout_cex :
    roleC2.deny_all = true
    ∧ entityPhase [] roleC2.permissions.entities "write" none = none
    ∧ scopeCheck [] roleC2.permissions.domains "system_log" "write" = none
    ∧ denyAllAllow roleC2.permissions.entities "system_log" "write" none = false
    ∧ checkServiceAccess cfgC2 (some "u") "system_log" "write" none tmplErrOracle = true := by
  refine ⟨rfl, rfl, rfl, rfl, by decide⟩

/-- C2 amended: when the deny-all step is reached (no conclusive
entity or domain result) under a non-admin deny-all role, and the
request is not one of the carved-out pairs `system_log.write` /
`browser_mod.notification` (which are always allowed at this step),
the decision is Allow exactly when a role entity allow rule covering
the service exists for a target entity id or, for `script` /
`automation`, the synthetic id `domain.service`; otherwise Block. -/
theorem c2_deny_all_amended :
    (∀ (dr : ScopeRuleSet) (rd : RoleDef) (domain service : String)
       (target : Option EntityTarget),
       rd.admin = false → rd.deny_all = true →
       entityPhase dr.entities rd.permissions.entities service target = none →
       scopeCheck dr.domains rd.permissions.domains domain service = none →
       ((domain == "system_log" && service == "write") ||
        (domain == "browser_mod" && service == "notification")) = false →
       checkKnownUserRole dr rd domain service target
         = denyAllAllow rd.permissions.entities domain service target)
    ∧ (∀ (roleEntities : List (String × Rule)) (domain service : String)
         (target : Option EntityTarget),
       denyAllAllow roleEntities domain service target = true ↔
         ∃ eid ∈ denyAllTargets domain service target, ∃ ec,
           roleEntities.lookup eid = some ec ∧ ec.allow = true ∧
           (ec.services = [] ∨ service ∈ ec.services)) := by
  constructor
  · intro dr rd domain service target hadm hdeny hent hdom hcv
    simp only [checkKnownUserRole, hadm, Bool.false_eq_true, if_false, hent, hdom,
      denyAllCheck, hdeny, hcv, Bool.not_false, Bool.and_true, if_true]
    by_cases h : denyAllAllow rd.permissions.entities domain service target <;> simp [h]
  · intro roleEntities domain service target
    rw [denyAllAllow, List.any_eq_true]
    constructor
    · rintro ⟨eid, hmem, hp⟩
      refine ⟨eid, hmem, ?_⟩
      cases hl : roleEntities.lookup eid with
      | none => rw [hl] at hp; exact absurd hp (by simp)
      | some ec =>
        rw [hl] at hp
        simp only [Bool.and_eq_true] at hp
        obtain ⟨ha, hs⟩ := hp
        refine ⟨ec, rfl, ha, ?_⟩
        simp only [emptyOrMem, Bool.or_eq_true] at hs
        rcases hs with h | h
        · exact Or.inl (List.isEmpty_iff.mp h)
        · exact Or.inr (List.elem_iff.mp h)
    · rintro ⟨eid, hmem, ec, hl, ha, hs⟩
      refine ⟨eid, hmem, ?_⟩
      simp only [hl, ha, Bool.true_and, emptyOrMem, Bool.or_eq_true]
      rcases hs with h | h
      · exact Or.inl (by simp [h])
      · exact Or.inr (List.elem_iff.mpr h)

/-- Witness for `c2_deny_all_amended`: a deny-all role whose entity
allow rule is keyed by the synthetic id `script.morning` decides a
`script.morning` call with no target by the entity allow override. -/
theorem c2_deny_all_amended_w :
    checkKnownUserRole {}
        { deny_all := true,
          permissions := { entities := [("script.morning", ruleAllowAll)] } }
        "script" "morning" none
      = denyAllAllow [("script.morning", ruleAllowAll)] "script" "morning" none :=
  c2_deny_all_amended.1 {}
    { deny_all := true,
      permissions := { entities := [("script.morning", ruleAllowAll)] } }
    "script" "morning" none
    rfl rfl (by decide) (by decide) (by decide)

/-! ### C3: entity scope precedes domain scope -/

/-- Role for the C3 example: blocks domain `light` entirely but
allows entity `light.kitchen`. -/
def roleC3 : RoleDef :=
  { permissions := { domains := [("light", ruleBlockAll)],
                     entities := [("light.kitchen", ruleAllowAll)] } }

def cfgC3 : AccessConfig :=
  { roles := [("r", roleC3)], users := [("u", { role := "r" })] }

/-- C3: a conclusive entity-scope result decides the request whatever
the request's domain (so whatever any domain rule would say); on the
spec's example, `light.turn_on` on `light.kitchen` is Allow while the
same service on `light.bedroom` is Block. -/
theorem c3_entity_over_domain :
    (∀ (dr : ScopeRuleSet) (rd : RoleDef) (domain domain' service : String)
       (target : Option EntityTarget) (b : Bool),
       rd.admin = false →
       entityPhase dr.entities rd.permissions.entities service target = some b →
       checkKnownUserRole dr rd domain service target = b
       ∧ checkKnownUserRole dr rd domain' service target = b)
    ∧ checkServiceAccess cfgC3 (some "u") "light" "turn_on"
        (some (.single "light.kitchen")) tmplErrOracle = true
    ∧ checkServiceAccess cfgC3 (some "u") "light" "turn_on"
        (some (.single "light.bedroom")) tmplErrOracle = false := by
  refine ⟨?_, by decide, by decide⟩
  intro dr rd domain domain' service target b hadm h
  exact ⟨checkKnownUserRole_of_entityPhase dr rd domain service target b hadm h,
         checkKnownUserRole_of_entityPhase dr rd domain' service target b hadm h⟩

/-- Witness for `c3_entity_over_domain`: the entity allow rule for
`light.kitchen` decides Allow although the role blocks domain
`light`. -/
theorem c3_entity_over_domain_w :
    checkKnownUserRole cfgC3.default_restrictions roleC3 "light" "turn_on"
      (some (.single "light.kitchen")) = true :=
  (c3_entity_over_domain.1 cfgC3.default_restrictions roleC3 "light" "climate"
    "turn_on" (some (.single "light.kitchen")) true rfl (by decide)).1

/-! ### C4: rule-matcher semantics at a matched scope key -/

/-- C4: characterization of the role-rule evaluation at a matched
scope key (`ruleMatch`, the code at lines 1102-1121 and 1181-1199):
an allow rule yields Allow when its service list is empty or contains
the service and Block otherwise; a block rule yields Block when its
list is empty or contains the service, else it is not applicable —
and an inapplicable scope falls through: with no default rule at a
key, the scope evaluates to exactly the role rule's `ruleMatch`. -/
theorem c4_rule_matcher_semantics :
    (∀ (r : Rule) (service : String),
      (r.allow = true →
        ((ruleMatch r service = some true ↔ (r.services = [] ∨ service ∈ r.services))
         ∧ (ruleMatch r service = some false ↔ ¬(r.services = [] ∨ service ∈ r.services))))
      ∧ (r.allow = false →
        ((ruleMatch r service = some false ↔ (r.services = [] ∨ service ∈ r.services))
         ∧ (ruleMatch r service = none ↔ ¬(r.services = [] ∨ service ∈ r.services)))))
    ∧ (∀ (defaults roleTable : List (String × Rule)) (key service : String),
       defaults.lookup key = none →
       scopeCheck defaults roleTable key service
         = (roleTable.lookup key).bind (fun rc => ruleMatch rc service)) := by
  constructor
  · intro r service
    have hform : r.allow = false →
        ruleMatch r service
          = (if emptyOrMem r.services service then some false else none) := by
      intro ha
      simp only [ruleMatch, ha, Bool.false_eq_true, if_false, emptyOrMem]
      by_cases h1 : r.services.isEmpty <;>
        by_cases h2 : r.services.contains service <;> simp [h1, h2]
    have hbv : emptyOrMem r.services service = true ↔
        (r.services = [] ∨ service ∈ r.services) := by
      simp [emptyOrMem, List.isEmpty_iff, List.elem_iff]
    constructor
    · intro ha
      by_cases hc : r.services = [] ∨ service ∈ r.services
      · have hb : emptyOrMem r.services service = true := hbv.mpr hc
        exact ⟨by simp [ruleMatch, ha, hb, hc], by simp [ruleMatch, ha, hb, hc]⟩
      · have hb : emptyOrMem r.services service = false := by
          rcases hv : emptyOrMem r.services service with _ | _
          · rfl
          · exact absurd (hbv.mp hv) hc
        exact ⟨by simp [ruleMatch, ha, hb, hc], by simp [ruleMatch, ha, hb, hc]⟩
    · intro ha
      by_cases hc : r.services = [] ∨ service ∈ r.services
      · have hb : emptyOrMem r.services service = true := hbv.mpr hc
        exact ⟨by simp [hform ha, hb, hc], by simp [hform ha, hb, hc]⟩
      · have hb : emptyOrMem r.services service = false := by
          rcases hv : emptyOrMem r.services service with _ | _
          · rfl
          · exact absurd (hbv.mp hv) hc
        exact ⟨by simp [hform ha, hb, hc], by simp [hform ha, hb, hc]⟩
  · intro defaults roleTable key service h
    simp only [scopeCheck, h]
    cases roleTable.lookup key <;> rfl

/-- Witness for `c4_rule_matcher_semantics`: the spec's example rule
`{allow: true, services: [turn_on]}` allows `turn_on`. -/
theorem c4_rule_matcher_semantics_w :
    ruleMatch { allow := true, hide := false, services := ["turn_on"] } "turn_on"
      = some true :=
  (((c4_rule_matcher_semantics.1
      { allow := true, hide := false, services := ["turn_on"] } "turn_on").1 rfl).1).mpr
    (Or.inr (by simp))

/-! ### C5: template-conditioned role with fallback -/

/-- Config for the C5 counterexample: the default restrictions block
domain `light` for everyone, and the subject's role has a template
with a fallback role that does not exist. -/
def cfgC5 : AccessConfig :=
  { default_restrictions := { domains := [("light", ruleBlockAll)], entities := [] }
    roles := [("family", { template := some "{{ person_home }}",
                           fallbackRole := some "guest" })]
    users := [("u", { role := "family" })] }

/-- C5 counterexample: with the fallback role absent from the
configured roles, the claim says the subject is treated like an
unknown subject (defaults only), which here blocks `light.turn_on`;
the code instead returns Allow immediately from the
fallback-not-found path, never applying the default restrictions. -/
theorem c5_fallback_missing_cex :
    cfgC5.roles.lookup "guest" = none
    ∧ checkUnknownUser cfgC5.default_restrictions "light" "turn_on" none = false
    ∧ checkServiceAccess cfgC5 (some "u") "light" "turn_on" none tmplFalsyOracle = true := by
  refine ⟨rfl, rfl, by decide⟩

/-- C5 amended: when the subject's role carries a (non-empty)
template and fallback role and the template renders falsy or raises,
the decision is computed under the fallback role's configuration;
when the fallback role is absent from the configured roles the
decision is Allow immediately, without applying the default
restrictions (so not equivalent to unknown-subject handling). -/
theorem c5_template_fallback_amended :
    ∀ (cfg : AccessConfig) (uid : String) (uc : UserConfig) (rc : RoleDef)
      (tstr frole domain service : String) (target : Option EntityTarget)
      (tmplEval : String → TemplateOutcome),
      uid ≠ "" → uid ≠ "null" →
      cfg.users.lookup uid = some uc →
      cfg.roles.lookup uc.role = some rc →
      rc.template = some tstr → tstr ≠ "" →
      rc.fallbackRole = some frole → frole ≠ "" →
      (tmplEval tstr = .err ∨ ∃ r, tmplEval tstr = .ok r ∧ templateTruthy r = false) →
      (∀ fc, cfg.roles.lookup frole = some fc →
        checkServiceAccess cfg (some uid) domain service target tmplEval
          = checkKnownUserRole cfg.default_restrictions fc domain service target)
      ∧ (cfg.roles.lookup frole = none →
        checkServiceAccess cfg (some uid) domain service target tmplEval = true) := by
  intro cfg uid uc rc tstr frole domain service target tmplEval
  intro hu1 hu2 huc hrc ht hts hf hfs htm
  have hb1 : (uid == "") = false := by simp [hu1]
  have hb2 : (uid == "null") = false := by simp [hu2]
  have hres : ∀ rr, resolveRoleConfig cfg.roles uc.role tmplEval = rr ↔
      (match cfg.roles.lookup frole with
       | none => RoleResolution.conclusiveAllow
       | some fc => RoleResolution.resolved frole fc) = rr := by
    intro rr
    rw [resolveRoleConfig, hrc]
    simp only [ht, hf, Option.getD_some]
    rcases htm with h | ⟨r, hok, hfalse⟩
    · rw [h]
      simp [truthyOptStr, hts, hfs]
    · rw [hok]
      simp [truthyOptStr, hts, hfs, hfalse]
  constructor
  · intro fc hfc
    have h2 := (hres (.resolved frole fc)).mpr (by rw [hfc])
    simp [checkServiceAccess, hb1, hb2, huc, h2]
  · intro hfc
    have h2 := (hres .conclusiveAllow).mpr (by rw [hfc])
    simp [checkServiceAccess, hb1, hb2, huc, h2]

/-- Config for the C5 witness: same as `cfgC5` but the fallback role
`guest` exists and blocks everything via `deny_all`. -/
def cfgC5w : AccessConfig :=
  { default_restrictions := {}
    roles := [("family", { template := some "{{ person_home }}",
                           fallbackRole := some "guest" }),
              ("guest", { deny_all := true })]
    users := [("u", { role := "family" })] }

/-- Witness for `c5_template_fallback_amended`: a falsy template
switches the decision to the fallback role `guest`. -/
theorem c5_template_fallback_amended_w :
    checkServiceAccess cfgC5w (some "u") "switch" "turn_on"
        (some (.single "switch.any")) tmplFalsyOracle
      = checkKnownUserRole cfgC5w.default_restrictions { deny_all := true }
          "switch" "turn_on" (some (.single "switch.any")) :=
  (c5_template_fallback_amended cfgC5w "u" { role := "family" }
      { template := some "{{ person_home }}", fallbackRole := some "guest" }
      "{{ person_home }}" "guest" "switch" "turn_on" (some (.single "switch.any"))
      tmplFalsyOracle
      (by decide) (by decide) (by decide) (by decide) rfl (by decide) rfl (by decide)
      (Or.inr ⟨"False", rfl, rfl⟩)).1
    { deny_all := true } (by decide)

/-! ### C6: multi-entity requests -/

/-- Role for the C6 counterexample: entity allow-all for `light.one`
and entity block-all for `light.two`. -/
def roleC6 : RoleDef :=
  { permissions := { entities := [("light.one", ruleAllowAll),
                                  ("light.two", ruleBlockAll)] } }

def cfgC6 : AccessConfig :=
  { roles := [("r", roleC6)], users := [("u", { role := "r" })] }

/-- C6 counterexample: a request targeting `[light.one, light.two]`
where entity-scope evaluation blocks `light.two` is nevertheless
allowed, because the per-entity loop returns at the first conclusive
entity (`light.one`, Allow) without examining the rest — so a Block
on one target does not block the request and allow is not unanimous. -/
theorem c6_first_conclusive_cex :
    scopeCheck cfgC6.default_restrictions.entities roleC6.permissions.entities
        "light.two" "turn_on" = some false
    ∧ checkServiceAccess cfgC6 (some "u") "light" "turn_on"
        (some (.multiple ["light.one", "light.two"])) tmplErrOracle = true := by
  refine ⟨rfl, by decide⟩

/-- C6 amended: a multi-entity request is decided by the first target
entity (in list order) with a conclusive entity-scope result — Block
if that result is Block, Allow if Allow — and entities after it are
not consulted. -/
theorem c6_multi_entity_amended :
    ∀ (dr : ScopeRuleSet) (rd : RoleDef) (domain service : String)
      (es1 es2 : List String) (e : String) (b : Bool),
      rd.admin = false →
      (∀ e' ∈ es1, scopeCheck dr.entities rd.permissions.entities e' service = none) →
      scopeCheck dr.entities rd.permissions.entities e service = some b →
      entityPhase dr.entities rd.permissions.entities service
          (some (.multiple (es1 ++ e :: es2))) = some b
      ∧ checkKnownUserRole dr rd domain service
          (some (.multiple (es1 ++ e :: es2))) = b := by
  intro dr rd domain service es1 es2 e b hadm h1 h2
  have hphase : entityPhase dr.entities rd.permissions.entities service
      (some (.multiple (es1 ++ e :: es2))) = some b := by
    simp only [entityPhase]
    exact findSome?_first_conclusive _ es1 es2 e b h1 h2
  exact ⟨hphase, checkKnownUserRole_of_entityPhase dr rd domain service
    (some (.multiple (es1 ++ e :: es2))) b hadm hphase⟩

/-- Witness for `c6_multi_entity_amended`: no rule matches
`light.zero`, the allow rule for `light.one` concludes, and the
blocked `light.two` that follows does not change the decision. -/
theorem c6_multi_entity_amended_w :
    checkKnownUserRole cfgC6.default_restrictions roleC6 "light" "turn_on"
      (some (.multiple (["light.zero"] ++ "light.one" :: ["light.two"]))) = true :=
  (c6_multi_entity_amended cfgC6.default_restrictions roleC6 "light" "turn_on"
    ["light.zero"] ["light.two"] "light.one" true rfl (by decide) (by decide)).2

/-! ### C7: chain guard scoped release -/

/-- C7: after an allowed chainable call runs (whether the wrapped
execution returns or raises — both are values of `outcome`), the
registered context id is gone from the pre-authorized set and the
call's result is passed along unchanged; a later call whose context
chain has no currently registered id is not chain-exempted, and under
the normal routing preconditions it is evaluated by the access
check. -/
theorem c7_chain_scoped_release :
    ∀ (st chain : List String) (cid : String) (outcome : Except String Unit)
      (cfg : AccessConfig) (domain service uid : String)
      (target : Option EntityTarget) (tmplEval : String → TemplateOutcome),
      ((runAllowedChainableCall st cid outcome).2.contains cid = false)
      ∧ ((runAllowedChainableCall st cid outcome).1 = outcome)
      ∧ ((∀ c ∈ chain, (runAllowedChainableCall st cid outcome).2.contains c = false) →
          isPreauthorized chain (runAllowedChainableCall st cid outcome).2 = false)
      ∧ ((∀ c ∈ chain, (runAllowedChainableCall st cid outcome).2.contains c = false) →
          excludedDomains.contains domain = false →
          uid ≠ "" → uid ≠ "null" → cfg.enabled = true →
          dispatchCall cfg (runAllowedChainableCall st cid outcome).2 chain
              domain service (some uid) false target tmplEval
            = .evaluated (checkServiceAccess cfg (some uid) domain service target tmplEval)) := by
  intro st chain cid outcome cfg domain service uid target tmplEval
  have hgone : (runAllowedChainableCall st cid outcome).2.contains cid = false := by
    simp [runAllowedChainableCall, endChain, List.elem_iff, List.mem_filter]
  have hpre : (∀ c ∈ chain, (runAllowedChainableCall st cid outcome).2.contains c = false) →
      isPreauthorized chain (runAllowedChainableCall st cid outcome).2 = false := by
    intro h
    rw [isPreauthorized, List.any_eq_false]
    intro c hc
    have hcc := h c hc
    simp at hcc
    simp [hcc]
  refine ⟨hgone, rfl, hpre, ?_⟩
  intro h hdom hu1 hu2 hen
  rw [dispatchCall, hpre h, hdom, hen]
  simp [hu1, hu2]

/-- Witness for `c7_chain_scoped_release`: a raising execution still
releases the registered context, and the later unrelated call is
evaluated normally. -/
theorem c7_chain_scoped_release_w :
    dispatchCall cfgC6 (runAllowedChainableCall [] "ctx1" (.error "boom")).2
        ["ctx2"] "light" "turn_on" (some "u") false
        (some (.single "light.two")) tmplErrOracle
      = .evaluated (checkServiceAccess cfgC6 (some "u") "light" "turn_on"
          (some (.single "light.two")) tmplErrOracle) :=
  (c7_chain_scoped_release [] ["ctx2"] "ctx1" (.error "boom") cfgC6 "light" "turn_on"
    "u" (some (.single "light.two")) tmplErrOracle).2.2.2
    (by decide) (by decide) (by decide) (by decide) rfl

/-! ### C8: deny-all carve-out pairs -/

/-- C8: when a request for `system_log.write` or
`browser_mod.notification` reaches the deny-all step under a
non-admin role with `deny_all` set (entity and domain phases
inconclusive), the decision is Allow. -/
theorem c8_deny_all_exceptions :
    ∀ (dr : ScopeRuleSet) (rd : RoleDef) (target : Option EntityTarget),
      rd.admin = false → rd.deny_all = true →
      (entityPhase dr.entities rd.permissions.entities "write" target = none →
       scopeCheck dr.domains rd.permissions.domains "system_log" "write" = none →
       checkKnownUserRole dr rd "system_log" "write" target = true)
      ∧ (entityPhase dr.entities rd.permissions.entities "notification" target = none →
       scopeCheck dr.domains rd.permissions.domains "browser_mod" "notification" = none →
       checkKnownUserRole dr rd "browser_mod" "notification" target = true) := by
  intro dr rd target hadm _
  constructor
  · intro hent hdom
    simp [checkKnownUserRole, hadm, hent, hdom, denyAllCheck]
  · intro hent hdom
    simp [checkKnownUserRole, hadm, hent, hdom, denyAllCheck]

/-- Witness for `c8_deny_all_exceptions`: the deny-all role with no
rules allows `system_log.write`. -/
theorem c8_deny_all_exceptions_w :
    checkKnownUserRole {} roleC2 "system_log" "write" none = true :=
  (c8_deny_all_exceptions {} roleC2 none rfl rfl).1 rfl rfl

/-! ### C9: the enabled flag -/

/-- Config for the C9 witness: RBAC disabled. -/
def cfgC9 : AccessConfig :=
  { enabled := false
    roles := [("r", roleC2)], users := [("u", { role := "r" })] }

/-- C9: with the policy's `enabled` flag false, no call from an
identified subject is ever evaluated against the rules — every
routing outcome is a passthrough to the original dispatcher. -/
theorem c9_disabled_allows_all :
    ∀ (cfg : AccessConfig) (allowedContexts contextChain : List String)
      (domain service uid : String) (builtinUser : Bool)
      (target : Option EntityTarget) (tmplEval : String → TemplateOutcome) (b : Bool),
      cfg.enabled = false →
      dispatchCall cfg allowedContexts contextChain domain service (some uid)
          builtinUser target tmplEval ≠ .evaluated b := by
  intro cfg allowedContexts contextChain domain service uid builtinUser target tmplEval b hen
  rw [dispatchCall, hen]
  split
  · simp
  · split
    · simp
    · split
      · simp
      · split <;> simp

/-- Witness for `c9_disabled_allows_all`: a disabled config never
evaluates the deny-all user's call. -/
theorem c9_disabled_allows_all_w :
    dispatchCall cfgC9 [] [] "switch" "turn_on" (some "u") false
        (some (.single "switch.one")) tmplErrOracle
      ≠ .evaluated false :=
  c9_disabled_allows_all cfgC9 [] [] "switch" "turn_on" "u" false
    (some (.single "switch.one")) tmplErrOracle false rfl

/-! ### C10: unknown subjects read defaults as block rules -/

/-- Overwrite a rule's `allow` flag. -/
def setRuleAllow (b : Bool) (r : Rule) : Rule := { r with allow := b }

/-- Overwrite the `allow` flag of every rule in a table. -/
def setTableAllow (b : Bool) (t : List (String × Rule)) : List (String × Rule) :=
  t.map (fun p => (p.1, setRuleAllow b p.2))

/-- Overwrite the `allow` flag of every rule of a rule set. -/
def setScopeAllow (b : Bool) (s : ScopeRuleSet) : ScopeRuleSet :=
  { domains := setTableAllow b s.domains, entities := setTableAllow b s.entities }

theorem lookup_setTableAllow (b : Bool) (t : List (String × Rule)) (k : String) :
    (setTableAllow b t).lookup k = (t.lookup k).map (setRuleAllow b) := by
  rw [setTableAllow]; exact lookup_map_value _ t k

theorem unknownEntityCheck_setAllow (b : Bool) (t : List (String × Rule))
    (service e : String) :
    unknownEntityCheck (setTableAllow b t) service e
      = unknownEntityCheck t service e := by
  rw [unknownEntityCheck, unknownEntityCheck, lookup_setTableAllow]
  cases t.lookup e <;> rfl

/-- C10: the unknown-subject path reads every default restriction as
a block rule — the decision never depends on any rule's `allow` flag,
a matching domain rule with an empty service list or one naming the
service blocks, a matching entity rule likewise, and a default domain
rule written `{allow: true}` blocks an unknown subject while the same
rule read for a known subject allows. -/
theorem c10_unknown_default_block_only :
    (∀ (b : Bool) (dr : ScopeRuleSet) (domain service : String)
       (target : Option EntityTarget),
       checkUnknownUser (setScopeAllow b dr) domain service target
         = checkUnknownUser dr domain service target)
    ∧ (∀ (dr : ScopeRuleSet) (domain service : String)
         (target : Option EntityTarget) (r : Rule),
       dr.domains.lookup domain = some r →
       (r.services = [] ∨ service ∈ r.services) →
       checkUnknownUser dr domain service target = false)
    ∧ (∀ (dr : ScopeRuleSet) (domain service e : String) (r : Rule),
       dr.domains.lookup domain = none →
       dr.entities.lookup e = some r →
       (r.services = [] ∨ service ∈ r.services) →
       checkUnknownUser dr domain service (some (.single e)) = false)
    ∧ checkUnknownUser { domains := [("light", ruleAllowAll)], entities := [] }
        "light" "turn_on" none = false
    ∧ checkKnownUserRole { domains := [("light", ruleAllowAll)], entities := [] }
        plainRole "light" "turn_on" none = true := by
  refine ⟨?_, ?_, ?_, by decide, by decide⟩
  · intro b dr domain service target
    have hent : unknownEntityCheck (setTableAllow b dr.entities) service
        = unknownEntityCheck dr.entities service :=
      funext (fun e => unknownEntityCheck_setAllow b dr.entities service e)
    simp only [checkUnknownUser, setScopeAllow, lookup_setTableAllow, hent]
    cases hd : dr.domains.lookup domain with
    | none => rfl
    | some d => rfl
  · intro dr domain service target r hr hsv
    simp only [checkUnknownUser, hr]
    rcases hsv with h | h
    · simp [h]
    · by_cases h1 : r.services.isEmpty <;> simp [h1, h]
  · intro dr domain service e r hd he hsv
    simp only [checkUnknownUser, hd, unknownEntityCheck, he]
    rcases hsv with h | h
    · simp [h]
    · by_cases h1 : r.services.isEmpty <;> simp [h1, h]

/-- Witness for `c10_unknown_default_block_only`: an unknown subject
is blocked by a default domain rule carrying `allow: true` and an
empty service list. -/
theorem c10_unknown_default_block_only_w :
    checkUnknownUser { domains := [("climate", ruleAllowAll)], entities := [] }
      "climate" "set_temperature" (some (.single "climate.x")) = false :=
  c10_unknown_default_block_only.2.1
    { domains := [("climate", ruleAllowAll)], entities := [] }
    "climate" "set_temperature" (some (.single "climate.x")) ruleAllowAll
    (by decide) (Or.inl rfl)

end RBAC
